import Mathlib

/-!
Verification of the Infura Gas API Go client (`package infura`).

The development shallowly embeds the client code:

* `client.go` — `Client`, the four constructors, the `ClientOption`
  functions, `hasSecret`, `getAuthHeader`, `doRequest`, `doJSONRequest`
  and `maskAuthHeader`;
* `gas.go` — the four endpoint methods `GetSuggestedGasFees`,
  `GetBaseFeeHistory`, `GetBaseFeePercentile`, `GetBusyThreshold`;
* `response.go` — the typed response shapes together with the relevant
  fragment of `encoding/json` unmarshalling (a text-to-AST parser
  followed by shape-directed extraction).

Go strings are modelled as Lean `String`s; where Go indexes raw bytes
(`maskAuthHeader`) the embedding indexes characters, which agrees with Go
on ASCII data such as HTTP header values produced by this client.
`time.Duration` values are modelled as natural numbers of seconds.
The HTTP exchange is modelled by passing the network as a function from
requests to responses; a call returns the issued request, the result and
the ordered list of diagnostic log lines, so that properties about paths,
headers and debug output are statable.
-/

namespace Infura

/-- JSON abstract syntax, the target of the `encoding/json` scanner.
Numeric literals keep their raw token text (Go parses them into
`float64`/`int64` only at extraction time). -/
inductive Json : Type where
  | null : Json
  | bool : Bool → Json
  | num : String → Json
  | str : String → Json
  | arr : List Json → Json
  | obj : List (String × Json) → Json
deriving Repr

/-- Whitespace accepted between JSON tokens. -/
def isJsonWs (c : Char) : Bool :=
  c = ' ' || c = '\t' || c = '\n' || c = '\r'

/-- Skip insignificant whitespace. -/
def skipWs : List Char → List Char
  | [] => []
  | c :: cs => if isJsonWs c then skipWs cs else c :: cs

/-- Characters that may occur in a numeric literal token. -/
def isNumChar (c : Char) : Bool :=
  c.isDigit || c = '-' || c = '+' || c = '.' || c = 'e' || c = 'E'

/-- Parse the body of a JSON string literal (the opening quote already
consumed); returns the decoded characters and the input after the closing
quote. Handles the single-character escapes Go accepts; a `\u` escape or
a raw control character is rejected (the claims never exercise them). -/
def parseStringBody (input : List Char) : Except String (List Char × List Char) :=
  match input with
  | [] => .error "unexpected end of JSON input"
  | c :: cs =>
    if c = '"' then .ok ([], cs)
    else if c = '\\' then
      match cs with
      | [] => .error "unexpected end of JSON input"
      | e :: cs₂ =>
        let dec : Except String Char :=
          if e = '"' then .ok '"'
          else if e = '\\' then .ok '\\'
          else if e = '/' then .ok '/'
          else if e = 'b' then .ok (Char.ofNat 8)
          else if e = 'f' then .ok (Char.ofNat 12)
          else if e = 'n' then .ok '\n'
          else if e = 'r' then .ok '\r'
          else if e = 't' then .ok '\t'
          else .error "invalid character in string escape code"
        match dec with
        | .error m => .error m
        | .ok d =>
          match parseStringBody cs₂ with
          | .error m => .error m
          | .ok (body, rest) => .ok (d :: body, rest)
    else if c.toNat < 32 then .error "invalid character in string literal"
    else
      match parseStringBody cs with
      | .error m => .error m
      | .ok (body, rest) => .ok (c :: body, rest)
  termination_by structural input

mutual

/-- Parse one JSON value; `fuel` bounds the recursion through composite
values (any `fuel` larger than the input length suffices, since every
element and every member consumes at least one character). -/
def parseValue (fuel : Nat) (cs : List Char) : Except String (Json × List Char) :=
  match fuel with
  | 0 => .error "exceeded max depth"
  | f + 1 =>
    match skipWs cs with
    | [] => .error "unexpected end of JSON input"
    | c :: cs₁ =>
      if c = '"' then
        match parseStringBody cs₁ with
        | .error m => .error m
        | .ok (body, rest) => .ok (.str (String.mk body), rest)
      else if c = '[' then
        match skipWs cs₁ with
        | ']' :: rest => .ok (.arr [], rest)
        | cs₂ =>
          match parseValue f cs₂ with
          | .error m => .error m
          | .ok (v, rest) => parseArrayRest f [v] rest
      else if c = '{' then
        match skipWs cs₁ with
        | '}' :: rest => .ok (.obj [], rest)
        | cs₂ =>
          match parseMember f cs₂ with
          | .error m => .error m
          | .ok (kv, rest) => parseObjectRest f [kv] rest
      else if c = 'n' then
        match cs₁ with
        | 'u' :: 'l' :: 'l' :: rest => .ok (.null, rest)
        | _ => .error "invalid character"
      else if c = 't' then
        match cs₁ with
        | 'r' :: 'u' :: 'e' :: rest => .ok (.bool true, rest)
        | _ => .error "invalid character"
      else if c = 'f' then
        match cs₁ with
        | 'a' :: 'l' :: 's' :: 'e' :: rest => .ok (.bool false, rest)
        | _ => .error "invalid character"
      else if isNumChar c then
        .ok (.num (String.mk (c :: cs₁.takeWhile isNumChar)), cs₁.dropWhile isNumChar)
      else .error "invalid character"
  termination_by structural fuel

/-- After an array element: expect `,` followed by another element, or the
closing `]`.  Elements are accumulated in reverse. -/
def parseArrayRest (fuel : Nat) (acc : List Json) (cs : List Char) :
    Except String (Json × List Char) :=
  match fuel with
  | 0 => .error "exceeded max depth"
  | f + 1 =>
    match skipWs cs with
    | ']' :: rest => .ok (.arr acc.reverse, rest)
    | ',' :: rest =>
      match parseValue f rest with
      | .error m => .error m
      | .ok (v, rest₂) => parseArrayRest f (v :: acc) rest₂
    | _ => .error "invalid character after array element"
  termination_by structural fuel

/-- Parse one object member `"key" : value`. -/
def parseMember (fuel : Nat) (cs : List Char) :
    Except String ((String × Json) × List Char) :=
  match fuel with
  | 0 => .error "exceeded max depth"
  | f + 1 =>
    match skipWs cs with
    | '"' :: cs₁ =>
      match parseStringBody cs₁ with
      | .error m => .error m
      | .ok (key, cs₂) =>
        match skipWs cs₂ with
        | ':' :: cs₃ =>
          match parseValue f cs₃ with
          | .error m => .error m
          | .ok (v, rest) => .ok ((String.mk key, v), rest)
        | _ => .error "invalid character after object key"
    | _ => .error "invalid character looking for object key"
  termination_by structural fuel

/-- After an object member: expect `,` followed by another member, or the
closing brace. -/
def parseObjectRest (fuel : Nat) (acc : List (String × Json)) (cs : List Char) :
    Except String (Json × List Char) :=
  match fuel with
  | 0 => .error "exceeded max depth"
  | f + 1 =>
    match skipWs cs with
    | '}' :: rest => .ok (.obj acc.reverse, rest)
    | ',' :: rest =>
      match parseMember f rest with
      | .error m => .error m
      | .ok (kv, rest₂) => parseObjectRest f (kv :: acc) rest₂
    | _ => .error "invalid character after object member"
  termination_by structural fuel

end

/-- The `encoding/json` top level: parse exactly one value, allowing only
trailing whitespace (Go rejects trailing garbage and empty input). -/
def parseJson (s : String) : Except String Json :=
  match parseValue (s.length + 1) s.data with
  | .error m => .error m
  | .ok (v, rest) =>
    match skipWs rest with
    | [] => .ok v
    | _ => .error "invalid character after top-level value"

/-! Typed response shapes (`response.go`) and the shape-directed part of
`json.Unmarshal` for each of them.  Go leaves a struct field at its zero
value when the member is missing or JSON `null`; a member of the wrong
kind is an unmarshalling error.  `float64` is not representable here, so
the single `float64` field (`networkCongestion`) keeps the raw numeric
token, with raw token "0" standing for the zero value. -/

/-- One fee level of the `suggestedGasFees` response (`GasFeeLevel`). -/
structure GasFeeLevel where
  suggestedMaxPriorityFeePerGas : String := ""
  suggestedMaxFeePerGas : String := ""
  minWaitTimeEstimate : Int := 0
  maxWaitTimeEstimate : Int := 0
deriving Repr, DecidableEq

/-- The `suggestedGasFees` response (`SuggestedGasFees`). -/
structure SuggestedGasFees where
  low : GasFeeLevel := {}
  medium : GasFeeLevel := {}
  high : GasFeeLevel := {}
  estimatedBaseFee : String := ""
  networkCongestion : String := "0"
  latestPriorityFeeRange : List String := []
  historicalPriorityFeeRange : List String := []
  historicalBaseFeeRange : List String := []
  priorityFeeTrend : String := ""
  baseFeeTrend : String := ""
deriving Repr, DecidableEq

/-- The `baseFeeHistory` response: a bare ordered sequence of strings. -/
def BaseFeeHistory : Type := List String
deriving instance Repr, DecidableEq for BaseFeeHistory

/-- The `baseFeePercentile` response (`BaseFeePercentile`). -/
structure BaseFeePercentile where
  baseFeePercentile : String := ""
deriving Repr, DecidableEq

/-- The `busyThreshold` response (`BusyThreshold`). -/
structure BusyThreshold where
  busyThreshold : String := ""
deriving Repr, DecidableEq

/-- Go object-member lookup for a struct field with JSON tag `key`:
members are matched case-insensitively (exact matches included), and the
value assigned last — i.e. the last matching member — wins. -/
def fieldValue (fields : List (String × Json)) (key : String) : Option Json :=
  ((fields.filter (fun kv => kv.1.toLower = key.toLower)).getLast?).map
    (fun kv => kv.2)

/-- Decode a member into a `string` field; absent or `null` keeps the zero
value. -/
def decodeStringField (v : Option Json) : Except String String :=
  match v with
  | none => .ok ""
  | some .null => .ok ""
  | some (.str s) => .ok s
  | some _ => .error "cannot unmarshal JSON value into Go value of type string"

/-- Decode a member into an `int64` field: the raw token must be an
optionally-signed integer (Go uses `strconv.ParseInt`, which rejects
fractions and exponents). -/
def decodeIntField (v : Option Json) : Except String Int :=
  match v with
  | none => .ok 0
  | some .null => .ok 0
  | some (.num raw) =>
    match raw.toInt? with
    | some i => .ok i
    | none => .error "cannot unmarshal number into Go value of type int64"
  | some _ => .error "cannot unmarshal JSON value into Go value of type int64"

/-- Decode a member into the raw-token model of a `float64` field. -/
def decodeNumField (v : Option Json) : Except String String :=
  match v with
  | none => .ok "0"
  | some .null => .ok "0"
  | some (.num raw) => .ok raw
  | some _ => .error "cannot unmarshal JSON value into Go value of type float64"

/-- Decode a JSON array of strings (shared by `[]string` fields and the
bare `BaseFeeHistory` value). -/
def decodeStringList (xs : List Json) : Except String (List String) :=
  match xs with
  | [] => .ok []
  | .str s :: rest =>
    match decodeStringList rest with
    | .error m => .error m
    | .ok tail => .ok (s :: tail)
  | _ :: _ => .error "cannot unmarshal JSON value into Go value of type string"

/-- Decode a member into a `[]string` field; absent or `null` keeps the
nil slice. -/
def decodeStringListField (v : Option Json) : Except String (List String) :=
  match v with
  | none => .ok []
  | some .null => .ok []
  | some (.arr xs) => decodeStringList xs
  | some _ => .error "cannot unmarshal JSON value into Go value of type []string"

/-- Decode a member into a nested `GasFeeLevel` struct. -/
def decodeGasFeeLevel (v : Option Json) : Except String GasFeeLevel :=
  match v with
  | none => .ok {}
  | some .null => .ok {}
  | some (.obj fields) => do
    let p ← decodeStringField (fieldValue fields "suggestedMaxPriorityFeePerGas")
    let f ← decodeStringField (fieldValue fields "suggestedMaxFeePerGas")
    let mn ← decodeIntField (fieldValue fields "minWaitTimeEstimate")
    let mx ← decodeIntField (fieldValue fields "maxWaitTimeEstimate")
    .ok { suggestedMaxPriorityFeePerGas := p, suggestedMaxFeePerGas := f,
          minWaitTimeEstimate := mn, maxWaitTimeEstimate := mx }
  | some _ => .error "cannot unmarshal JSON value into Go value of type GasFeeLevel"

/-- `json.Unmarshal` into `*SuggestedGasFees`. -/
def unmarshalSuggestedGasFees (s : String) : Except String SuggestedGasFees := do
  match ← parseJson s with
  | .null => .ok {}
  | .obj fields => do
    let low ← decodeGasFeeLevel (fieldValue fields "low")
    let medium ← decodeGasFeeLevel (fieldValue fields "medium")
    let high ← decodeGasFeeLevel (fieldValue fields "high")
    let ebf ← decodeStringField (fieldValue fields "estimatedBaseFee")
    let nc ← decodeNumField (fieldValue fields "networkCongestion")
    let lpfr ← decodeStringListField (fieldValue fields "latestPriorityFeeRange")
    let hpfr ← decodeStringListField (fieldValue fields "historicalPriorityFeeRange")
    let hbfr ← decodeStringListField (fieldValue fields "historicalBaseFeeRange")
    let pft ← decodeStringField (fieldValue fields "priorityFeeTrend")
    let bft ← decodeStringField (fieldValue fields "baseFeeTrend")
    .ok { low := low, medium := medium, high := high, estimatedBaseFee := ebf,
          networkCongestion := nc, latestPriorityFeeRange := lpfr,
          historicalPriorityFeeRange := hpfr, historicalBaseFeeRange := hbfr,
          priorityFeeTrend := pft, baseFeeTrend := bft }
  | _ => .error "cannot unmarshal JSON value into Go value of type SuggestedGasFees"

/-- `json.Unmarshal` into `*BaseFeeHistory`: the value must be a bare JSON
array of strings (or `null`, which leaves the nil slice). -/
def unmarshalBaseFeeHistory (s : String) : Except String BaseFeeHistory := do
  match ← parseJson s with
  | .null => .ok ([] : List String)
  | .arr xs => decodeStringList xs
  | _ => .error "cannot unmarshal JSON value into Go value of type BaseFeeHistory"

/-- `json.Unmarshal` into `*BaseFeePercentile`. -/
def unmarshalBaseFeePercentile (s : String) : Except String BaseFeePercentile := do
  match ← parseJson s with
  | .null => .ok {}
  | .obj fields => do
    let v ← decodeStringField (fieldValue fields "baseFeePercentile")
    .ok { baseFeePercentile := v }
  | _ => .error "cannot unmarshal JSON value into Go value of type BaseFeePercentile"

/-- `json.Unmarshal` into `*BusyThreshold`. -/
def unmarshalBusyThreshold (s : String) : Except String BusyThreshold := do
  match ← parseJson s with
  | .null => .ok {}
  | .obj fields => do
    let v ← decodeStringField (fieldValue fields "busyThreshold")
    .ok { busyThreshold := v }
  | _ => .error "cannot unmarshal JSON value into Go value of type BusyThreshold"

/-! Base64 (`encoding/base64` `StdEncoding`) over byte lists, and the
UTF-8 byte view of a Go string (`[]byte(s)`). -/

/-- UTF-8 encoding of one character, as natural numbers below 256. -/
def utf8EncodeChar (c : Char) : List Nat :=
  if c.toNat < 128 then [c.toNat]
  else if c.toNat < 2048 then [192 + c.toNat / 64, 128 + c.toNat % 64]
  else if c.toNat < 65536 then
    [224 + c.toNat / 4096, 128 + c.toNat / 64 % 64, 128 + c.toNat % 64]
  else
    [240 + c.toNat / 262144, 128 + c.toNat / 4096 % 64, 128 + c.toNat / 64 % 64,
     128 + c.toNat % 64]

/-- The byte content of a Go string, `[]byte(s)`. -/
def strBytes (s : String) : List Nat :=
  s.data.flatMap utf8EncodeChar

/-- The standard base64 alphabet. -/
def base64Char (n : Nat) : Char :=
  if n < 26 then Char.ofNat (65 + n)
  else if n < 52 then Char.ofNat (97 + (n - 26))
  else if n < 62 then Char.ofNat (48 + (n - 52))
  else if n = 62 then '+'
  else '/'

/-- Inverse of the standard base64 alphabet. -/
def base64CharDec (c : Char) : Option Nat :=
  let n := c.toNat
  if 65 ≤ n ∧ n ≤ 90 then some (n - 65)
  else if 97 ≤ n ∧ n ≤ 122 then some (n - 97 + 26)
  else if 48 ≤ n ∧ n ≤ 57 then some (n - 48 + 52)
  else if c = '+' then some 62
  else if c = '/' then some 63
  else none

/-- `base64.StdEncoding.EncodeToString`, three input bytes per four output
characters, padded with `=`. -/
def base64EncodeBytes : List Nat → List Char
  | [] => []
  | [b1] => [base64Char (b1 / 4), base64Char (b1 % 4 * 16), '=', '=']
  | [b1, b2] =>
    [base64Char (b1 / 4), base64Char (b1 % 4 * 16 + b2 / 16),
     base64Char (b2 % 16 * 4), '=']
  | b1 :: b2 :: b3 :: rest =>
    base64Char (b1 / 4) :: base64Char (b1 % 4 * 16 + b2 / 16) ::
    base64Char (b2 % 16 * 4 + b3 / 64) :: base64Char (b3 % 64) ::
    base64EncodeBytes rest

/-- `base64.StdEncoding.DecodeString`: four characters per three bytes,
with `=`-padding only at the very end. -/
def base64DecodeChars : List Char → Option (List Nat)
  | [] => some []
  | c1 :: c2 :: c3 :: c4 :: rest =>
    match base64CharDec c1, base64CharDec c2 with
    | some s1, some s2 =>
      if c3 = '=' then
        if c4 = '=' ∧ rest = [] then some [s1 * 4 + s2 / 16] else none
      else
        match base64CharDec c3 with
        | some s3 =>
          if c4 = '=' then
            if rest = [] then some [s1 * 4 + s2 / 16, s2 % 16 * 16 + s3 / 4]
            else none
          else
            match base64CharDec c4 with
            | some s4 =>
              match base64DecodeChars rest with
              | some r =>
                some ((s1 * 4 + s2 / 16) :: (s2 % 16 * 16 + s3 / 4) ::
                      (s3 % 4 * 64 + s4) :: r)
              | none => none
            | none => none
        | none => none
    | _, _ => none
  | _ => none

/-! The client data model (`client.go`).  `http.Client` is modelled by its
configuration: the timeout it would apply and an opaque tag standing for
the identity of the handle; the network behaviour itself is passed to each
call as a function from requests to responses. -/

/-- `BaseURL`, the default base URL for the Infura Gas API. -/
def BaseURL : String := "https://gas.api.infura.io"

/-- `DefaultTimeout` (30 seconds), in seconds. -/
def DefaultTimeout : Nat := 30

/-- Configuration view of an `*http.Client` handle. -/
structure HTTPClient where
  timeout : Nat
  tag : Nat := 0
deriving Repr, DecidableEq

/-- The `Client` struct. -/
structure Client where
  apiKey : String
  apiKeySecret : String
  baseURL : String
  httpClient : HTTPClient
  debug : Bool := false
deriving Repr, DecidableEq

/-- `NewClient`: credential pair, default base URL, default timeout. -/
def NewClient (apiKey apiKeySecret : String) : Client :=
  { apiKey := apiKey, apiKeySecret := apiKeySecret, baseURL := BaseURL,
    httpClient := { timeout := DefaultTimeout } }

/-- `NewClientWithAPIKey`: credential only, empty secret. -/
def NewClientWithAPIKey (apiKey : String) : Client :=
  { apiKey := apiKey, apiKeySecret := "", baseURL := BaseURL,
    httpClient := { timeout := DefaultTimeout } }

/-- The four option closures (`ClientOption` values constructed by
`WithBaseURL`, `WithHTTPClient`, `WithTimeout`, `WithDebug`). -/
inductive ClientOption : Type where
  | withBaseURL : String → ClientOption
  | withHTTPClient : HTTPClient → ClientOption
  | withTimeout : Nat → ClientOption
  | withDebug : Bool → ClientOption
deriving Repr, DecidableEq

/-- Application of one option closure to the client under construction.
`WithTimeout` writes through to the timeout of the current handle;
`WithHTTPClient` replaces the handle wholesale, its own timeout included. -/
def applyOption (c : Client) : ClientOption → Client
  | .withBaseURL u => { c with baseURL := u }
  | .withHTTPClient h => { c with httpClient := h }
  | .withTimeout t => { c with httpClient := { c.httpClient with timeout := t } }
  | .withDebug b => { c with debug := b }

/-- `NewClientWithOptions`: defaults, then the options in call order. -/
def NewClientWithOptions (apiKey apiKeySecret : String)
    (opts : List ClientOption) : Client :=
  opts.foldl applyOption
    { apiKey := apiKey, apiKeySecret := apiKeySecret, baseURL := BaseURL,
      httpClient := { timeout := DefaultTimeout } }

/-- `NewClientWithAPIKeyAndOptions`: empty secret, then the options. -/
def NewClientWithAPIKeyAndOptions (apiKey : String)
    (opts : List ClientOption) : Client :=
  opts.foldl applyOption
    { apiKey := apiKey, apiKeySecret := "", baseURL := BaseURL,
      httpClient := { timeout := DefaultTimeout } }

/-- `hasSecret`: true iff the API key secret is non-empty. -/
def Client.hasSecret (c : Client) : Bool :=
  c.apiKeySecret ≠ ""

/-- `getAuthHeader`: the Basic Auth header value. -/
def Client.getAuthHeader (c : Client) : String :=
  let auth := c.apiKey ++ ":" ++ c.apiKeySecret
  "Basic " ++ String.mk (base64EncodeBytes (strBytes auth))

/-- `maskAuthHeader`: keep the first 10 and last 7 characters when the
value is longer than 20, otherwise a fixed placeholder.  (Go indexes
bytes; header values here are ASCII, where bytes and characters agree.) -/
def maskAuthHeader (auth : String) : String :=
  if auth.length > 20 then
    String.mk (auth.data.take 10) ++ "..." ++
      String.mk (auth.data.drop (auth.data.length - 7))
  else "***"

/-! The transport invoker (`doRequest` / `doJSONRequest`).  The network is
passed in as a function from requests to responses; a call yields the
issued request, the typed result and the ordered diagnostic log lines. -/

/-- An HTTP request as this client builds it. -/
structure Request where
  method : String
  url : String
  headers : List (String × String)
deriving Repr, DecidableEq

/-- An HTTP response as this client consumes it. -/
structure HTTPResponse where
  statusCode : Nat
  body : String
deriving Repr, DecidableEq

/-- The network: what the configured `http.Client` would answer. -/
def Transport : Type := Request → HTTPResponse

/-- The errors `doJSONRequest` can produce on a delivered response
(`fmt.Errorf` values, kept structured with their rendered messages). -/
inductive ClientError : Type where
  | apiError : Nat → String → ClientError
  | decodeError : String → ClientError
deriving Repr, DecidableEq

/-- The rendered `error.Error()` message. -/
def ClientError.message : ClientError → String
  | .apiError status body =>
    "API request failed with status " ++ toString status ++ ": " ++ body
  | .decodeError cause => "failed to decode response: " ++ cause

/-- Headers as `logRequest` prints them, the Authorization value masked. -/
def maskedHeaders (hs : List (String × String)) : List (String × String) :=
  hs.map (fun kv => if kv.1 = "Authorization" then (kv.1, maskAuthHeader kv.2) else kv)

/-- The `logRequest` diagnostic line (method, URL, masked headers). -/
def logRequestLine (req : Request) : String :=
  "[DEBUG] " ++ req.method ++ " " ++ req.url ++ " " ++
    String.intercalate "; "
      ((maskedHeaders req.headers).map (fun kv => kv.1 ++ ": " ++ kv.2))

/-- The `logResponseHeaders` diagnostic line. -/
def logResponseHeadersLine (resp : HTTPResponse) : String :=
  "[DEBUG] Status Code: " ++ toString resp.statusCode

/-- The `logResponseBody` diagnostic line. -/
def logResponseBodyLine (body : String) : String :=
  "[DEBUG] Response Body: " ++ body

/-- The unmarshal-failure diagnostic line. -/
def logDecodeFailLine (cause : String) : String :=
  "[DEBUG] Failed to unmarshal response: " ++ cause

/-- The parsed-object diagnostic line. -/
def logParsedLine : String := "[DEBUG] Parsed response object"

/-- `doRequest`: build the request to `baseURL + endpoint`, set the
Authorization header only when a secret is configured, always set
Content-Type and Accept, log when debugging, and consult the network. -/
def doRequest (c : Client) (method endpoint : String) (transport : Transport) :
    Request × HTTPResponse × List String :=
  let url := c.baseURL ++ endpoint
  let headers :=
    (if c.hasSecret then [("Authorization", c.getAuthHeader)] else []) ++
      [("Content-Type", "application/json"), ("Accept", "application/json")]
  let req : Request := { method := method, url := url, headers := headers }
  let log₁ := if c.debug then [logRequestLine req] else []
  let resp := transport req
  let log₂ := if c.debug then [logResponseHeadersLine resp] else []
  (req, resp, log₁ ++ log₂)

/-- What one endpoint call yields: the typed result (or error), the
request that was issued, and the diagnostic log lines in order. -/
structure CallResult (α : Type) where
  result : Except ClientError α
  request : Request
  log : List String

/-- `doJSONRequest` for the calls this client makes (the request body is
always nil): read the response, log its body when debugging, fail with
`apiError` outside [200,300), otherwise unmarshal into the typed result,
failing with `decodeError` on unmarshal failure. -/
def doJSONRequest {α : Type} (c : Client) (method endpoint : String)
    (decode : String → Except String α) (transport : Transport) : CallResult α :=
  let r := doRequest c method endpoint transport
  let req := r.1
  let resp := r.2.1
  let log := r.2.2 ++ (if c.debug then [logResponseBodyLine resp.body] else [])
  if resp.statusCode < 200 ∨ resp.statusCode ≥ 300 then
    { result := .error (.apiError resp.statusCode resp.body),
      request := req, log := log }
  else
    match decode resp.body with
    | .error cause =>
      { result := .error (.decodeError cause), request := req,
        log := log ++ (if c.debug then [logDecodeFailLine cause] else []) }
    | .ok v =>
      { result := .ok v, request := req,
        log := log ++ (if c.debug then [logParsedLine] else []) }

/-- `GetSuggestedGasFees` (`gas.go`). -/
def Client.GetSuggestedGasFees (c : Client) (chainID : Int)
    (transport : Transport) : CallResult SuggestedGasFees :=
  let endpoint :=
    if c.hasSecret then
      "/networks/" ++ toString chainID ++ "/suggestedGasFees"
    else
      "/v3/" ++ c.apiKey ++ "/networks/" ++ toString chainID ++ "/suggestedGasFees"
  doJSONRequest c "GET" endpoint unmarshalSuggestedGasFees transport

/-- `GetBaseFeeHistory` (`gas.go`). -/
def Client.GetBaseFeeHistory (c : Client) (chainID : Int)
    (transport : Transport) : CallResult BaseFeeHistory :=
  let endpoint :=
    if c.hasSecret then
      "/networks/" ++ toString chainID ++ "/baseFeeHistory"
    else
      "/v3/" ++ c.apiKey ++ "/networks/" ++ toString chainID ++ "/baseFeeHistory"
  doJSONRequest c "GET" endpoint unmarshalBaseFeeHistory transport

/-- `GetBaseFeePercentile` (`gas.go`). -/
def Client.GetBaseFeePercentile (c : Client) (chainID : Int)
    (transport : Transport) : CallResult BaseFeePercentile :=
  let endpoint :=
    if c.hasSecret then
      "/networks/" ++ toString chainID ++ "/baseFeePercentile"
    else
      "/v3/" ++ c.apiKey ++ "/networks/" ++ toString chainID ++ "/baseFeePercentile"
  doJSONRequest c "GET" endpoint unmarshalBaseFeePercentile transport

/-- `GetBusyThreshold` (`gas.go`). -/
def Client.GetBusyThreshold (c : Client) (chainID : Int)
    (transport : Transport) : CallResult BusyThreshold :=
  let endpoint :=
    if c.hasSecret then
      "/networks/" ++ toString chainID ++ "/busyThreshold"
    else
      "/v3/" ++ c.apiKey ++ "/networks/" ++ toString chainID ++ "/busyThreshold"
  doJSONRequest c "GET" endpoint unmarshalBusyThreshold transport

/-- A constant network answering every request with the same response,
used to quantify over "the response the server returns". -/
def constTransport (status : Nat) (body : String) : Transport :=
  fun _ => { statusCode := status, body := body }

/-! Helper lemmas about the transport invoker. -/

/-- Value of a header by exact name. -/
def headerValue (req : Request) (name : String) : Option String :=
  (req.headers.find? (fun kv => kv.1 = name)).map (fun kv => kv.2)

theorem doRequest_fst (c : Client) (m e : String) (t : Transport) :
    (doRequest c m e t).1 =
      { method := m, url := c.baseURL ++ e,
        headers :=
          (if c.hasSecret then [("Authorization", c.getAuthHeader)] else []) ++
            [("Content-Type", "application/json"),
             ("Accept", "application/json")] } := rfl

theorem doRequest_resp (c : Client) (m e : String) (t : Transport) :
    (doRequest c m e t).2.1 = t (doRequest c m e t).1 := rfl

theorem doJSONRequest_request {α : Type} (c : Client) (m e : String)
    (dec : String → Except String α) (t : Transport) :
    (doJSONRequest c m e dec t).request = (doRequest c m e t).1 := by
  unfold doJSONRequest
  dsimp only
  split
  · rfl
  · split <;> rfl

theorem doJSONRequest_result {α : Type} (c : Client) (m e : String)
    (dec : String → Except String α) (t : Transport) :
    (doJSONRequest c m e dec t).result =
      (if (doRequest c m e t).2.1.statusCode < 200 ∨
          (doRequest c m e t).2.1.statusCode ≥ 300 then
         .error (.apiError (doRequest c m e t).2.1.statusCode
                           (doRequest c m e t).2.1.body)
       else
         match dec (doRequest c m e t).2.1.body with
         | .error cause => .error (.decodeError cause)
         | .ok v => .ok v) := by
  unfold doJSONRequest
  dsimp only
  split
  · rfl
  · split <;> rfl

theorem getAuthHeader_ne_empty (c : Client) : c.getAuthHeader ≠ "" := by
  intro h
  have hlen := congrArg String.length h
  rw [Client.getAuthHeader] at hlen
  rw [String.length_append] at hlen
  simp at hlen
  exact absurd hlen.1 (by decide)

theorem hasSecret_eq_true {c : Client} (h : c.apiKeySecret ≠ "") :
    c.hasSecret = true := by
  simp [Client.hasSecret, h]

theorem hasSecret_eq_false {c : Client} (h : c.apiKeySecret = "") :
    c.hasSecret = false := by
  simp [Client.hasSecret, h]

theorem getSuggestedGasFees_request_basic (c : Client) (n : Int) (t : Transport)
    (h : c.apiKeySecret ≠ "") :
    (c.GetSuggestedGasFees n t).request =
      { method := "GET",
        url := c.baseURL ++ "/networks/" ++ toString n ++ "/suggestedGasFees",
        headers := [("Authorization", c.getAuthHeader),
                    ("Content-Type", "application/json"),
                    ("Accept", "application/json")] } := by
  simp only [Client.GetSuggestedGasFees, doJSONRequest_request, doRequest_fst,
    hasSecret_eq_true h]
  simp [String.append_assoc]

theorem getBaseFeeHistory_request_basic (c : Client) (n : Int) (t : Transport)
    (h : c.apiKeySecret ≠ "") :
    (c.GetBaseFeeHistory n t).request =
      { method := "GET",
        url := c.baseURL ++ "/networks/" ++ toString n ++ "/baseFeeHistory",
        headers := [("Authorization", c.getAuthHeader),
                    ("Content-Type", "application/json"),
                    ("Accept", "application/json")] } := by
  simp only [Client.GetBaseFeeHistory, doJSONRequest_request, doRequest_fst,
    hasSecret_eq_true h]
  simp [String.append_assoc]

theorem getBaseFeePercentile_request_basic (c : Client) (n : Int) (t : Transport)
    (h : c.apiKeySecret ≠ "") :
    (c.GetBaseFeePercentile n t).request =
      { method := "GET",
        url := c.baseURL ++ "/networks/" ++ toString n ++ "/baseFeePercentile",
        headers := [("Authorization", c.getAuthHeader),
                    ("Content-Type", "application/json"),
                    ("Accept", "application/json")] } := by
  simp only [Client.GetBaseFeePercentile, doJSONRequest_request, doRequest_fst,
    hasSecret_eq_true h]
  simp [String.append_assoc]

theorem getBusyThreshold_request_basic (c : Client) (n : Int) (t : Transport)
    (h : c.apiKeySecret ≠ "") :
    (c.GetBusyThreshold n t).request =
      { method := "GET",
        url := c.baseURL ++ "/networks/" ++ toString n ++ "/busyThreshold",
        headers := [("Authorization", c.getAuthHeader),
                    ("Content-Type", "application/json"),
                    ("Accept", "application/json")] } := by
  simp only [Client.GetBusyThreshold, doJSONRequest_request, doRequest_fst,
    hasSecret_eq_true h]
  simp [String.append_assoc]

theorem getSuggestedGasFees_request_url (c : Client) (n : Int) (t : Transport)
    (h : c.apiKeySecret = "") :
    (c.GetSuggestedGasFees n t).request =
      { method := "GET",
        url := c.baseURL ++ "/v3/" ++ c.apiKey ++ "/networks/" ++ toString n ++
          "/suggestedGasFees",
        headers := [("Content-Type", "application/json"),
                    ("Accept", "application/json")] } := by
  simp only [Client.GetSuggestedGasFees, doJSONRequest_request, doRequest_fst,
    hasSecret_eq_false h]
  simp [String.append_assoc]

theorem getBaseFeeHistory_request_url (c : Client) (n : Int) (t : Transport)
    (h : c.apiKeySecret = "") :
    (c.GetBaseFeeHistory n t).request =
      { method := "GET",
        url := c.baseURL ++ "/v3/" ++ c.apiKey ++ "/networks/" ++ toString n ++
          "/baseFeeHistory",
        headers := [("Content-Type", "application/json"),
                    ("Accept", "application/json")] } := by
  simp only [Client.GetBaseFeeHistory, doJSONRequest_request, doRequest_fst,
    hasSecret_eq_false h]
  simp [String.append_assoc]

theorem getBaseFeePercentile_request_url (c : Client) (n : Int) (t : Transport)
    (h : c.apiKeySecret = "") :
    (c.GetBaseFeePercentile n t).request =
      { method := "GET",
        url := c.baseURL ++ "/v3/" ++ c.apiKey ++ "/networks/" ++ toString n ++
          "/baseFeePercentile",
        headers := [("Content-Type", "application/json"),
                    ("Accept", "application/json")] } := by
  simp only [Client.GetBaseFeePercentile, doJSONRequest_request, doRequest_fst,
    hasSecret_eq_false h]
  simp [String.append_assoc]

theorem getBusyThreshold_request_url (c : Client) (n : Int) (t : Transport)
    (h : c.apiKeySecret = "") :
    (c.GetBusyThreshold n t).request =
      { method := "GET",
        url := c.baseURL ++ "/v3/" ++ c.apiKey ++ "/networks/" ++ toString n ++
          "/busyThreshold",
        headers := [("Content-Type", "application/json"),
                    ("Accept", "application/json")] } := by
  simp only [Client.GetBusyThreshold, doJSONRequest_request, doRequest_fst,
    hasSecret_eq_false h]
  simp [String.append_assoc]

/-- C1: for every client and chain identifier, each of the four endpoint
methods builds the request path from the authentication mode: with a
non-empty secret the path is `/networks/{n}/{endpointName}` and the
request carries a non-empty Authorization header; with an empty secret
the path is `/v3/{credentialID}/networks/{n}/{endpointName}` and no
Authorization header is set at all. -/
theorem c1_endpoint_paths_and_auth (c : Client) (n : Int) (t : Transport) :
    (c.apiKeySecret ≠ "" →
      ((c.GetSuggestedGasFees n t).request.url =
          c.baseURL ++ "/networks/" ++ toString n ++ "/suggestedGasFees" ∧
       (c.GetBaseFeeHistory n t).request.url =
          c.baseURL ++ "/networks/" ++ toString n ++ "/baseFeeHistory" ∧
       (c.GetBaseFeePercentile n t).request.url =
          c.baseURL ++ "/networks/" ++ toString n ++ "/baseFeePercentile" ∧
       (c.GetBusyThreshold n t).request.url =
          c.baseURL ++ "/networks/" ++ toString n ++ "/busyThreshold") ∧
      ∀ r ∈ [(c.GetSuggestedGasFees n t).request,
             (c.GetBaseFeeHistory n t).request,
             (c.GetBaseFeePercentile n t).request,
             (c.GetBusyThreshold n t).request],
        ∃ v, headerValue r "Authorization" = some v ∧ v ≠ "") ∧
    (c.apiKeySecret = "" →
      ((c.GetSuggestedGasFees n t).request.url =
          c.baseURL ++ "/v3/" ++ c.apiKey ++ "/networks/" ++ toString n ++
            "/suggestedGasFees" ∧
       (c.GetBaseFeeHistory n t).request.url =
          c.baseURL ++ "/v3/" ++ c.apiKey ++ "/networks/" ++ toString n ++
            "/baseFeeHistory" ∧
       (c.GetBaseFeePercentile n t).request.url =
          c.baseURL ++ "/v3/" ++ c.apiKey ++ "/networks/" ++ toString n ++
            "/baseFeePercentile" ∧
       (c.GetBusyThreshold n t).request.url =
          c.baseURL ++ "/v3/" ++ c.apiKey ++ "/networks/" ++ toString n ++
            "/busyThreshold") ∧
      ∀ r ∈ [(c.GetSuggestedGasFees n t).request,
             (c.GetBaseFeeHistory n t).request,
             (c.GetBaseFeePercentile n t).request,
             (c.GetBusyThreshold n t).request],
        headerValue r "Authorization" = none) := by
  constructor
  · intro h
    rw [getSuggestedGasFees_request_basic c n t h,
        getBaseFeeHistory_request_basic c n t h,
        getBaseFeePercentile_request_basic c n t h,
        getBusyThreshold_request_basic c n t h]
    refine ⟨⟨rfl, rfl, rfl, rfl⟩, ?_⟩
    intro r hr
    refine ⟨c.getAuthHeader, ?_, getAuthHeader_ne_empty c⟩
    simp at hr
    rcases hr with h1 | h1 | h1 | h1 <;> rw [h1] <;> simp [headerValue]
  · intro h
    rw [getSuggestedGasFees_request_url c n t h,
        getBaseFeeHistory_request_url c n t h,
        getBaseFeePercentile_request_url c n t h,
        getBusyThreshold_request_url c n t h]
    refine ⟨⟨rfl, rfl, rfl, rfl⟩, ?_⟩
    intro r hr
    simp at hr
    rcases hr with h1 | h1 | h1 | h1 <;> rw [h1] <;> simp [headerValue]

/-- Witness for C1 at a concrete client, chain id 1 and a concrete
network, one mode per constructor. -/
theorem c1_endpoint_paths_and_auth_witness :
    (∃ v, headerValue ((NewClient "key" "secret").GetSuggestedGasFees 1
        (constTransport 200 "null")).request "Authorization" = some v ∧ v ≠ "") ∧
    ((NewClientWithAPIKey "key").GetBusyThreshold 1
        (constTransport 200 "null")).request.url =
      (NewClientWithAPIKey "key").baseURL ++ "/v3/" ++ "key" ++ "/networks/" ++
        toString (1 : Int) ++ "/busyThreshold" ∧
    headerValue ((NewClientWithAPIKey "key").GetBaseFeeHistory 1
        (constTransport 200 "null")).request "Authorization" = none := by
  refine ⟨?_, ?_, ?_⟩
  · exact ((c1_endpoint_paths_and_auth (NewClient "key" "secret") 1
      (constTransport 200 "null")).1 (by decide)).2 _ (by simp)
  · exact (((c1_endpoint_paths_and_auth (NewClientWithAPIKey "key") 1
      (constTransport 200 "null")).2 rfl).1).2.2.2
  · exact ((c1_endpoint_paths_and_auth (NewClientWithAPIKey "key") 1
      (constTransport 200 "null")).2 rfl).2 _ (by simp)

theorem doJSONRequest_result_non2xx {α : Type} (c : Client) (m e : String)
    (dec : String → Except String α) (status : Nat) (body : String)
    (h : status < 200 ∨ 300 ≤ status) :
    (doJSONRequest c m e dec (constTransport status body)).result =
      .error (.apiError status body) := by
  rw [doJSONRequest_result]
  have hresp : (doRequest c m e (constTransport status body)).2.1 =
      { statusCode := status, body := body } := rfl
  rw [hresp]
  simp only [ge_iff_le]
  rw [if_pos h]

/-- C2: for every response with a status code outside [200,300), every
endpoint method returns the API error (never a result), and the rendered
error message contains both the numeric status code and the raw body. -/
theorem c2_non2xx_api_error (c : Client) (n : Int) (status : Nat)
    (body : String) (h : status < 200 ∨ 300 ≤ status) :
    ((c.GetSuggestedGasFees n (constTransport status body)).result =
        .error (.apiError status body) ∧
     (c.GetBaseFeeHistory n (constTransport status body)).result =
        .error (.apiError status body) ∧
     (c.GetBaseFeePercentile n (constTransport status body)).result =
        .error (.apiError status body) ∧
     (c.GetBusyThreshold n (constTransport status body)).result =
        .error (.apiError status body)) ∧
    (toString status).data <:+: (ClientError.apiError status body).message.data ∧
    body.data <:+: (ClientError.apiError status body).message.data := by
  refine ⟨⟨?_, ?_, ?_, ?_⟩, ?_, ?_⟩
  · simp only [Client.GetSuggestedGasFees]
    exact doJSONRequest_result_non2xx c "GET" _ _ status body h
  · simp only [Client.GetBaseFeeHistory]
    exact doJSONRequest_result_non2xx c "GET" _ _ status body h
  · simp only [Client.GetBaseFeePercentile]
    exact doJSONRequest_result_non2xx c "GET" _ _ status body h
  · simp only [Client.GetBusyThreshold]
    exact doJSONRequest_result_non2xx c "GET" _ _ status body h
  · refine ⟨"API request failed with status ".data, (": " ++ body).data, ?_⟩
    simp [ClientError.message, String.data_append, List.append_assoc]
  · refine ⟨("API request failed with status " ++ toString status ++ ": ").data,
      [], ?_⟩
    simp [ClientError.message, String.data_append, List.append_assoc]

/-- Witness for C2 at status 404 with body `oops`. -/
theorem c2_non2xx_api_error_witness :
    ((NewClient "k" "s").GetSuggestedGasFees 1 (constTransport 404 "oops")).result
        = .error (.apiError 404 "oops") ∧
    (toString 404).data <:+: (ClientError.apiError 404 "oops").message.data ∧
    "oops".data <:+: (ClientError.apiError 404 "oops").message.data := by
  obtain ⟨hres, hinf1, hinf2⟩ :=
    c2_non2xx_api_error (NewClient "k" "s") 1 404 "oops" (by decide)
  exact ⟨hres.1, hinf1, hinf2⟩

theorem doJSONRequest_result_decode {α : Type} (c : Client) (m e : String)
    (dec : String → Except String α) (status : Nat) (body : String)
    (h200 : 200 ≤ status) (h300 : status < 300) (cause : String)
    (hdec : dec body = .error cause) :
    (doJSONRequest c m e dec (constTransport status body)).result =
      .error (.decodeError cause) := by
  rw [doJSONRequest_result]
  have hresp : (doRequest c m e (constTransport status body)).2.1 =
      { statusCode := status, body := body } := rfl
  rw [hresp]
  simp only [ge_iff_le]
  rw [if_neg (by omega)]
  rw [hdec]

/-- C3: for every 200 response whose body the expected shape's unmarshaller
rejects, every endpoint method returns a decode error wrapping the parse
failure, never a zero-valued result with a nil error. -/
theorem c3_undecodable_body_decode_error (c : Client) (n : Int) (body : String) :
    (∀ cause, unmarshalSuggestedGasFees body = .error cause →
      (c.GetSuggestedGasFees n (constTransport 200 body)).result =
        .error (.decodeError cause)) ∧
    (∀ cause, unmarshalBaseFeeHistory body = .error cause →
      (c.GetBaseFeeHistory n (constTransport 200 body)).result =
        .error (.decodeError cause)) ∧
    (∀ cause, unmarshalBaseFeePercentile body = .error cause →
      (c.GetBaseFeePercentile n (constTransport 200 body)).result =
        .error (.decodeError cause)) ∧
    (∀ cause, unmarshalBusyThreshold body = .error cause →
      (c.GetBusyThreshold n (constTransport 200 body)).result =
        .error (.decodeError cause)) := by
  refine ⟨fun cause h => ?_, fun cause h => ?_, fun cause h => ?_,
    fun cause h => ?_⟩
  · simp only [Client.GetSuggestedGasFees]
    exact doJSONRequest_result_decode c "GET" _ _ 200 body (by omega) (by omega)
      cause h
  · simp only [Client.GetBaseFeeHistory]
    exact doJSONRequest_result_decode c "GET" _ _ 200 body (by omega) (by omega)
      cause h
  · simp only [Client.GetBaseFeePercentile]
    exact doJSONRequest_result_decode c "GET" _ _ 200 body (by omega) (by omega)
      cause h
  · simp only [Client.GetBusyThreshold]
    exact doJSONRequest_result_decode c "GET" _ _ 200 body (by omega) (by omega)
      cause h

/-- Witness for C3 with the literal body `invalid json`. -/
theorem c3_undecodable_body_decode_error_witness :
    unmarshalSuggestedGasFees "invalid json" = .error "invalid character" ∧
    ((NewClientWithAPIKey "k").GetSuggestedGasFees 1
        (constTransport 200 "invalid json")).result =
      .error (.decodeError "invalid character") ∧
    ((NewClientWithAPIKey "k").GetBaseFeeHistory 1
        (constTransport 200 "invalid json")).result =
      .error (.decodeError "invalid character") ∧
    ((NewClientWithAPIKey "k").GetBaseFeePercentile 1
        (constTransport 200 "invalid json")).result =
      .error (.decodeError "invalid character") ∧
    ((NewClientWithAPIKey "k").GetBusyThreshold 1
        (constTransport 200 "invalid json")).result =
      .error (.decodeError "invalid character") := by
  obtain ⟨h1, h2, h3, h4⟩ :=
    c3_undecodable_body_decode_error (NewClientWithAPIKey "k") 1 "invalid json"
  exact ⟨rfl, h1 _ rfl, h2 _ rfl, h3 _ rfl, h4 _ rfl⟩

/-- C10: for every 2xx response with an empty body, every endpoint method
returns a decode error (the empty body reaches the JSON decoder, which
rejects empty input), never a zero-valued result. -/
theorem c10_empty_body_decode_error (c : Client) (n : Int) (status : Nat)
    (h200 : 200 ≤ status) (h300 : status < 300) :
    (c.GetSuggestedGasFees n (constTransport status "")).result =
      .error (.decodeError "unexpected end of JSON input") ∧
    (c.GetBaseFeeHistory n (constTransport status "")).result =
      .error (.decodeError "unexpected end of JSON input") ∧
    (c.GetBaseFeePercentile n (constTransport status "")).result =
      .error (.decodeError "unexpected end of JSON input") ∧
    (c.GetBusyThreshold n (constTransport status "")).result =
      .error (.decodeError "unexpected end of JSON input") := by
  refine ⟨?_, ?_, ?_, ?_⟩
  · simp only [Client.GetSuggestedGasFees]
    exact doJSONRequest_result_decode c "GET" _ _ status "" h200 h300 _ rfl
  · simp only [Client.GetBaseFeeHistory]
    exact doJSONRequest_result_decode c "GET" _ _ status "" h200 h300 _ rfl
  · simp only [Client.GetBaseFeePercentile]
    exact doJSONRequest_result_decode c "GET" _ _ status "" h200 h300 _ rfl
  · simp only [Client.GetBusyThreshold]
    exact doJSONRequest_result_decode c "GET" _ _ status "" h200 h300 _ rfl

/-- Witness for C10 at a 204 response with zero-byte body. -/
theorem c10_empty_body_decode_error_witness :
    ((NewClient "k" "s").GetSuggestedGasFees 1 (constTransport 204 "")).result =
      .error (.decodeError "unexpected end of JSON input") ∧
    ((NewClient "k" "s").GetBaseFeeHistory 1 (constTransport 204 "")).result =
      .error (.decodeError "unexpected end of JSON input") := by
  obtain ⟨h1, h2, _, _⟩ :=
    c10_empty_body_decode_error (NewClient "k" "s") 1 204 (by decide) (by decide)
  exact ⟨h1, h2⟩
theorem parseStringBody_simple (l rest : List Char)
    (h : ∀ c ∈ l, c ≠ '"' ∧ c ≠ '\\' ∧ 32 ≤ c.toNat) :
    parseStringBody (l ++ '"' :: rest) = .ok (l, rest) := by
  induction l with
  | nil => rw [List.nil_append, parseStringBody.eq_def]; simp
  | cons c l ih =>
    have hc := h c (by simp)
    have hl : ∀ x ∈ l, x ≠ '"' ∧ x ≠ '\\' ∧ 32 ≤ x.toNat :=
      fun x hx => h x (by simp [hx])
    have h32 : ¬ (c.toNat < 32) := by omega
    rw [List.cons_append, parseStringBody.eq_def]
    dsimp only
    rw [if_neg hc.1, if_neg hc.2.1, if_neg h32, ih hl]
def renderTail : List String → List Char
  | [] => []
  | s :: ss => ',' :: '"' :: (s.data ++ '"' :: renderTail ss)

def renderElems : List String → List Char
  | [] => []
  | s :: ss => '"' :: (s.data ++ '"' :: renderTail ss)

def renderStringArray (l : List String) : String :=
  String.mk ('[' :: (renderElems l ++ [']']))

abbrev SimpleJsonString (s : String) : Prop :=
  ∀ c ∈ s.data, c ≠ '"' ∧ c ≠ '\\' ∧ 32 ≤ c.toNat

theorem parseValue_quoted (f : Nat) (s : String) (rest : List Char)
    (h : SimpleJsonString s) :
    parseValue (f + 1) ('"' :: (s.data ++ '"' :: rest)) = .ok (.str s, rest) := by
  have hskip : skipWs ('"' :: (s.data ++ '"' :: rest)) =
      '"' :: (s.data ++ '"' :: rest) := rfl
  rw [parseValue.eq_def]
  dsimp only
  rw [hskip]
  dsimp only
  rw [if_pos rfl, parseStringBody_simple s.data rest h]

theorem parseArrayRest_render (l : List String) :
    ∀ (f : Nat) (acc : List Json) (rest : List Char),
    (∀ s ∈ l, SimpleJsonString s) → l.length < f →
    parseArrayRest f acc (renderTail l ++ ']' :: rest) =
      .ok (.arr (acc.reverse ++ l.map .str), rest) := by
  induction l with
  | nil =>
    intro f acc rest _ hf
    match f, hf with
    | g + 1, _ =>
      rw [renderTail, List.nil_append, parseArrayRest.eq_def]
      have hskip : skipWs (']' :: rest) = ']' :: rest := rfl
      dsimp only
      rw [hskip]
      simp
  | cons s ss ih =>
    intro f acc rest hs hf
    have hss : ∀ x ∈ ss, SimpleJsonString x := fun x hx => hs x (by simp [hx])
    have hs1 : SimpleJsonString s := hs s (by simp)
    match f, hf with
    | g + 1, hf =>
      have hg : ss.length < g := by simpa using hf
      match g, hg with
      | g₂ + 1, hg =>
        rw [renderTail, List.cons_append, List.cons_append, List.append_assoc,
          List.cons_append, parseArrayRest.eq_def]
        have hskip : skipWs (',' :: ('"' :: (s.data ++ '"' ::
            (renderTail ss ++ ']' :: rest)))) =
            ',' :: ('"' :: (s.data ++ '"' :: (renderTail ss ++ ']' :: rest))) := rfl
        dsimp only
        rw [hskip]
        show (match parseValue (g₂ + 1) ('"' :: (s.data ++ '"' ::
            (renderTail ss ++ ']' :: rest))) with
          | Except.error m => Except.error m
          | Except.ok (v, rest₂) => parseArrayRest (g₂ + 1) (v :: acc) rest₂) =
          Except.ok (Json.arr (acc.reverse ++ List.map Json.str (s :: ss)), rest)
        rw [parseValue_quoted g₂ s (renderTail ss ++ ']' :: rest) hs1]
        show parseArrayRest (g₂ + 1) (Json.str s :: acc)
            (renderTail ss ++ ']' :: rest) =
          Except.ok (Json.arr (acc.reverse ++ List.map Json.str (s :: ss)), rest)
        rw [ih (g₂ + 1) (.str s :: acc) rest hss (by omega)]
        simp

theorem renderTail_length (ss : List String) :
    ss.length ≤ (renderTail ss).length := by
  induction ss with
  | nil => simp [renderTail]
  | cons s ss ih => simp [renderTail]; omega

theorem renderElems_length (l : List String) :
    l.length ≤ (renderElems l).length + 1 := by
  cases l with
  | nil => simp [renderElems]
  | cons s ss =>
    have := renderTail_length ss
    simp [renderElems]; omega

theorem parseValue_stringArray (l : List String) (f : Nat) (rest : List Char)
    (hs : ∀ s ∈ l, SimpleJsonString s) (hf : l.length + 2 ≤ f) :
    parseValue f ('[' :: (renderElems l ++ ']' :: rest)) =
      .ok (.arr (l.map .str), rest) := by
  match f, hf with
  | g + 1, hf =>
    rw [parseValue.eq_def]
    dsimp only
    cases l with
    | nil =>
      rw [renderElems, List.nil_append]
      have hskip1 : skipWs ('[' :: ']' :: rest) = '[' :: ']' :: rest := rfl
      rw [hskip1]
      have hskip2 : skipWs (']' :: rest) = ']' :: rest := rfl
      show (match skipWs (']' :: rest) with
        | ']' :: rest => Except.ok (Json.arr [], rest)
        | cs₂ =>
          match parseValue g cs₂ with
          | Except.error m => Except.error m
          | Except.ok (v, rest) => parseArrayRest g [v] rest) =
        Except.ok (Json.arr (List.map Json.str []), rest)
      rw [hskip2]
      rfl
    | cons s ss =>
      have hss : ∀ x ∈ ss, SimpleJsonString x := fun x hx => hs x (by simp [hx])
      have hs1 : SimpleJsonString s := hs s (by simp)
      match g, hf with
      | g₂ + 1, hf =>
        rw [renderElems, List.cons_append, List.append_assoc, List.cons_append]
        have hskip1 : skipWs ('[' :: '"' :: (s.data ++ '"' ::
            (renderTail ss ++ ']' :: rest))) =
            '[' :: '"' :: (s.data ++ '"' :: (renderTail ss ++ ']' :: rest)) := rfl
        rw [hskip1]
        show (match skipWs ('"' :: (s.data ++ '"' ::
            (renderTail ss ++ ']' :: rest))) with
          | ']' :: rest => Except.ok (Json.arr [], rest)
          | cs₂ =>
            match parseValue (g₂ + 1) cs₂ with
            | Except.error m => Except.error m
            | Except.ok (v, rest) => parseArrayRest (g₂ + 1) [v] rest) =
          Except.ok (Json.arr (List.map Json.str (s :: ss)), rest)
        have hskip2 : skipWs ('"' :: (s.data ++ '"' ::
            (renderTail ss ++ ']' :: rest))) =
            '"' :: (s.data ++ '"' :: (renderTail ss ++ ']' :: rest)) := rfl
        rw [hskip2]
        show (match parseValue (g₂ + 1) ('"' :: (s.data ++ '"' ::
            (renderTail ss ++ ']' :: rest))) with
          | Except.error m => Except.error m
          | Except.ok (v, rest) => parseArrayRest (g₂ + 1) [v] rest) =
          Except.ok (Json.arr (List.map Json.str (s :: ss)), rest)
        rw [parseValue_quoted g₂ s (renderTail ss ++ ']' :: rest) hs1]
        show parseArrayRest (g₂ + 1) [Json.str s]
            (renderTail ss ++ ']' :: rest) =
          Except.ok (Json.arr (List.map Json.str (s :: ss)), rest)
        rw [parseArrayRest_render ss (g₂ + 1) [Json.str s] rest hss (by
          have := hf; simp at this; omega)]
        simp

theorem parseJson_renderStringArray (l : List String)
    (hs : ∀ s ∈ l, SimpleJsonString s) :
    parseJson (renderStringArray l) = .ok (.arr (l.map .str)) := by
  rw [parseJson]
  have hdata : (renderStringArray l).data = '[' :: (renderElems l ++ ']' :: []) := rfl
  have hlen : (renderStringArray l).length = (renderElems l).length + 2 := by
    simp [renderStringArray, String.length]
  rw [hdata, hlen]
  have := renderElems_length l
  rw [parseValue_stringArray l ((renderElems l).length + 2 + 1) [] hs (by omega)]
  rfl

theorem decodeStringList_map (l : List String) :
    decodeStringList (l.map .str) = .ok l := by
  induction l with
  | nil => rfl
  | cons s ss ih => rw [List.map_cons, decodeStringList, ih]

theorem unmarshalBaseFeeHistory_render (l : List String)
    (hs : ∀ s ∈ l, SimpleJsonString s) :
    unmarshalBaseFeeHistory (renderStringArray l) = .ok l := by
  rw [unmarshalBaseFeeHistory]
  rw [parseJson_renderStringArray l hs]
  show decodeStringList (l.map .str) = .ok l
  exact decodeStringList_map l

theorem doJSONRequest_result_ok {α : Type} (c : Client) (m e : String)
    (dec : String → Except String α) (status : Nat) (body : String)
    (h200 : 200 ≤ status) (h300 : status < 300) (v : α)
    (hdec : dec body = .ok v) :
    (doJSONRequest c m e dec (constTransport status body)).result = .ok v := by
  rw [doJSONRequest_result]
  have hresp : (doRequest c m e (constTransport status body)).2.1 =
      { statusCode := status, body := body } := rfl
  rw [hresp]
  simp only [ge_iff_le]
  rw [if_neg (by omega)]
  rw [hdec]

/-- C4: for every bare JSON array of strings served with status 200 by the
`baseFeeHistory` endpoint, `GetBaseFeeHistory` decodes it into the very
same ordered sequence; no wrapping JSON object is required, and a wrapping
object is in fact rejected. -/
theorem c4_baseFeeHistory_bare_array (c : Client) (n : Int) (l : List String)
    (hs : ∀ s ∈ l, SimpleJsonString s) :
    (c.GetBaseFeeHistory n
        (constTransport 200 (renderStringArray l))).result = .ok l ∧
    unmarshalBaseFeeHistory (renderStringArray l) = .ok l ∧
    unmarshalBaseFeeHistory "\x7b\"baseFeeHistory\":[\"24.0\"]\x7d" =
      .error "cannot unmarshal JSON value into Go value of type BaseFeeHistory" := by
  refine ⟨?_, unmarshalBaseFeeHistory_render l hs, rfl⟩
  simp only [Client.GetBaseFeeHistory]
  exact doJSONRequest_result_ok c "GET" _ _ 200 (renderStringArray l)
    (by omega) (by omega) l (unmarshalBaseFeeHistory_render l hs)

/-- Witness for C4 at the array `["24.0","25.1","23.9"]`. -/
theorem c4_baseFeeHistory_bare_array_witness :
    renderStringArray ["24.0", "25.1", "23.9"] = "[\"24.0\",\"25.1\",\"23.9\"]" ∧
    ((NewClientWithAPIKey "k").GetBaseFeeHistory 1
        (constTransport 200 (renderStringArray ["24.0", "25.1", "23.9"]))).result =
      .ok ["24.0", "25.1", "23.9"] := by
  refine ⟨rfl, ?_⟩
  exact (c4_baseFeeHistory_bare_array (NewClientWithAPIKey "k") 1
    ["24.0", "25.1", "23.9"] (by decide)).1

/-- C5: with an empty secret, the dual-credential constructor yields a
client identical to the credential-only constructor from the same key:
the same client value, identical endpoint calls (same request, result and
log for the same network), the URL-embedded `/v3/{k}/...` path shape, and
no Authorization header. -/
theorem c5_empty_secret_equivalence (k : String) (n : Int) (t : Transport) :
    NewClient k "" = NewClientWithAPIKey k ∧
    ((NewClient k "").GetSuggestedGasFees n t =
        (NewClientWithAPIKey k).GetSuggestedGasFees n t ∧
     (NewClient k "").GetBaseFeeHistory n t =
        (NewClientWithAPIKey k).GetBaseFeeHistory n t ∧
     (NewClient k "").GetBaseFeePercentile n t =
        (NewClientWithAPIKey k).GetBaseFeePercentile n t ∧
     (NewClient k "").GetBusyThreshold n t =
        (NewClientWithAPIKey k).GetBusyThreshold n t) ∧
    ((NewClient k "").GetSuggestedGasFees n t).request.url =
      BaseURL ++ "/v3/" ++ k ++ "/networks/" ++ toString n ++
        "/suggestedGasFees" ∧
    ((NewClient k "").GetBaseFeeHistory n t).request.url =
      BaseURL ++ "/v3/" ++ k ++ "/networks/" ++ toString n ++
        "/baseFeeHistory" ∧
    ((NewClient k "").GetBaseFeePercentile n t).request.url =
      BaseURL ++ "/v3/" ++ k ++ "/networks/" ++ toString n ++
        "/baseFeePercentile" ∧
    ((NewClient k "").GetBusyThreshold n t).request.url =
      BaseURL ++ "/v3/" ++ k ++ "/networks/" ++ toString n ++
        "/busyThreshold" ∧
    ∀ r ∈ [((NewClient k "").GetSuggestedGasFees n t).request,
           ((NewClient k "").GetBaseFeeHistory n t).request,
           ((NewClient k "").GetBaseFeePercentile n t).request,
           ((NewClient k "").GetBusyThreshold n t).request],
      headerValue r "Authorization" = none := by
  refine ⟨rfl, ⟨rfl, rfl, rfl, rfl⟩, ?_, ?_, ?_, ?_, ?_⟩
  · rw [getSuggestedGasFees_request_url (NewClient k "") n t rfl]; rfl
  · rw [getBaseFeeHistory_request_url (NewClient k "") n t rfl]; rfl
  · rw [getBaseFeePercentile_request_url (NewClient k "") n t rfl]; rfl
  · rw [getBusyThreshold_request_url (NewClient k "") n t rfl]; rfl
  · intro r hr
    rw [getSuggestedGasFees_request_url (NewClient k "") n t rfl,
        getBaseFeeHistory_request_url (NewClient k "") n t rfl,
        getBaseFeePercentile_request_url (NewClient k "") n t rfl,
        getBusyThreshold_request_url (NewClient k "") n t rfl] at hr
    simp at hr
    rcases hr with h1 | h1 | h1 | h1 <;> rw [h1] <;> simp [headerValue]
theorem base64CharDec_base64Char (m : Nat) (h : m < 64) :
    base64CharDec (base64Char m) = some m := by
  have hall : ∀ x : Fin 64, base64CharDec (base64Char x.1) = some x.1 := by decide
  exact hall ⟨m, h⟩

theorem base64Char_ne_pad (m : Nat) (h : m < 64) : base64Char m ≠ '=' := by
  intro he
  have hd := base64CharDec_base64Char m h
  rw [he] at hd
  have : (base64CharDec '=' : Option Nat) = none := rfl
  rw [this] at hd
  cases hd

theorem char_toNat_lt (c : Char) : c.toNat < 1114112 := by
  have hv := c.valid
  rcases hv with h | ⟨h1, h2⟩
  · exact Nat.lt_trans h (by decide)
  · exact h2
theorem utf8EncodeChar_lt_256 (c : Char) : ∀ b ∈ utf8EncodeChar c, b < 256 := by
  have hv := char_toNat_lt c
  intro b hb
  rw [utf8EncodeChar] at hb
  split at hb
  · simp at hb; omega
  · split at hb
    · simp at hb; omega
    · split at hb
      · simp at hb; omega
      · simp at hb; omega

theorem strBytes_lt_256 (s : String) : ∀ b ∈ strBytes s, b < 256 := by
  intro b hb
  rw [strBytes] at hb
  rw [List.mem_flatMap] at hb
  obtain ⟨c, _, hc⟩ := hb
  exact utf8EncodeChar_lt_256 c b hc

theorem base64_decode_encode : ∀ (bs : List Nat), (∀ b ∈ bs, b < 256) →
    base64DecodeChars (base64EncodeBytes bs) = some bs
  | [], _ => rfl
  | [b1], h => by
    have hb1 : b1 < 256 := h b1 (by simp)
    show base64DecodeChars
      [base64Char (b1 / 4), base64Char (b1 % 4 * 16), '=', '='] = some [b1]
    rw [base64DecodeChars.eq_def]
    dsimp only
    rw [base64CharDec_base64Char (b1 / 4) (by omega),
        base64CharDec_base64Char (b1 % 4 * 16) (by omega)]
    dsimp only
    rw [if_pos rfl, if_pos ⟨rfl, rfl⟩]
    have e1 : b1 / 4 * 4 + b1 % 4 * 16 / 16 = b1 := by omega
    rw [e1]
  | [b1, b2], h => by
    have hb1 : b1 < 256 := h b1 (by simp)
    have hb2 : b2 < 256 := h b2 (by simp)
    show base64DecodeChars
      [base64Char (b1 / 4), base64Char (b1 % 4 * 16 + b2 / 16),
       base64Char (b2 % 16 * 4), '='] = some [b1, b2]
    rw [base64DecodeChars.eq_def]
    dsimp only
    rw [base64CharDec_base64Char (b1 / 4) (by omega),
        base64CharDec_base64Char (b1 % 4 * 16 + b2 / 16) (by omega)]
    dsimp only
    rw [if_neg (base64Char_ne_pad (b2 % 16 * 4) (by omega))]
    rw [base64CharDec_base64Char (b2 % 16 * 4) (by omega)]
    dsimp only
    rw [if_pos rfl, if_pos rfl]
    have e1 : b1 / 4 * 4 + (b1 % 4 * 16 + b2 / 16) / 16 = b1 := by omega
    have e2 : (b1 % 4 * 16 + b2 / 16) % 16 * 16 + b2 % 16 * 4 / 4 = b2 := by omega
    rw [e1, e2]
  | b1 :: b2 :: b3 :: rest, h => by
    have hb1 : b1 < 256 := h b1 (by simp)
    have hb2 : b2 < 256 := h b2 (by simp)
    have hb3 : b3 < 256 := h b3 (by simp)
    have hrest : ∀ b ∈ rest, b < 256 := fun b hb =>
      h b (List.mem_cons_of_mem _ (List.mem_cons_of_mem _
        (List.mem_cons_of_mem _ hb)))
    have ih := base64_decode_encode rest hrest
    show base64DecodeChars
      (base64Char (b1 / 4) :: base64Char (b1 % 4 * 16 + b2 / 16) ::
       base64Char (b2 % 16 * 4 + b3 / 64) :: base64Char (b3 % 64) ::
       base64EncodeBytes rest) = some (b1 :: b2 :: b3 :: rest)
    rw [base64DecodeChars.eq_def]
    dsimp only
    rw [base64CharDec_base64Char (b1 / 4) (by omega),
        base64CharDec_base64Char (b1 % 4 * 16 + b2 / 16) (by omega)]
    dsimp only
    rw [if_neg (base64Char_ne_pad (b2 % 16 * 4 + b3 / 64) (by omega))]
    rw [base64CharDec_base64Char (b2 % 16 * 4 + b3 / 64) (by omega)]
    dsimp only
    rw [if_neg (base64Char_ne_pad (b3 % 64) (by omega))]
    rw [base64CharDec_base64Char (b3 % 64) (by omega)]
    dsimp only
    rw [ih]
    dsimp only
    have e1 : b1 / 4 * 4 + (b1 % 4 * 16 + b2 / 16) / 16 = b1 := by omega
    have e2 : (b1 % 4 * 16 + b2 / 16) % 16 * 16 +
        (b2 % 16 * 4 + b3 / 64) / 4 = b2 := by omega
    have e3 : (b2 % 16 * 4 + b3 / 64) % 4 * 64 + b3 % 64 = b3 := by omega
    rw [e1, e2, e3]

/-- C6: for every credential pair, the value `getAuthHeader` returns is
the Basic scheme tag followed by a base64 payload that decodes to exactly
the bytes of `credentialID ++ ":" ++ credentialSecret`. -/
theorem c6_authHeader_base64_roundtrip (c : Client) :
    ∃ payload : List Char,
      c.getAuthHeader = "Basic " ++ String.mk payload ∧
      base64DecodeChars payload =
        some (strBytes (c.apiKey ++ ":" ++ c.apiKeySecret)) := by
  refine ⟨base64EncodeBytes (strBytes (c.apiKey ++ ":" ++ c.apiKeySecret)),
    rfl, ?_⟩
  exact base64_decode_encode _ (strBytes_lt_256 _)

/-- Counterexample for C7: at a value of exactly 20 characters the claim
predicts the keep-first-10-last-7 form (the value is not shorter than 20),
but `maskAuthHeader` returns the fixed placeholder. -/
theorem c7_mask_threshold_counterexample :
    ¬ (("ABCDEFGHIJKLMNOPQRST" : String).length < 20) ∧
    maskAuthHeader "ABCDEFGHIJKLMNOPQRST" = "***" ∧
    maskAuthHeader "ABCDEFGHIJKLMNOPQRST" ≠ "ABCDEFGHIJ" ++ "..." ++ "NOPQRST" := by
  refine ⟨by decide, rfl, by decide⟩

/-- C7 (amended): the masking function keeps the first 10 and the last 7
characters with an elision in between exactly when the value is longer
than 20 characters, and returns the fixed placeholder exactly when the
length is at most 20 (not, as claimed, below 20). -/
theorem c7_mask_spec (v : String) :
    (v.length > 20 →
      ∃ pre mid suf : String, v = pre ++ mid ++ suf ∧ pre.length = 10 ∧
        suf.length = 7 ∧ maskAuthHeader v = pre ++ "..." ++ suf) ∧
    (v.length ≤ 20 → maskAuthHeader v = "***") := by
  constructor
  · intro h
    have hlen : v.data.length > 20 := h
    refine ⟨String.mk (v.data.take 10),
      String.mk ((v.data.drop 10).take (v.data.length - 17)),
      String.mk (v.data.drop (v.data.length - 7)), ?_, ?_, ?_, ?_⟩
    · apply String.ext
      show v.data = (v.data.take 10 ++ (v.data.drop 10).take (v.data.length - 17))
        ++ v.data.drop (v.data.length - 7)
      rw [List.append_assoc]
      have h1 : (v.data.drop 10).take (v.data.length - 17) ++
          v.data.drop (v.data.length - 7) = v.data.drop 10 := by
        have h2 : v.data.drop (v.data.length - 7) =
            (v.data.drop 10).drop (v.data.length - 17) := by
          rw [List.drop_drop]
          congr 1
          omega
        rw [h2, List.take_append_drop]
      rw [h1, List.take_append_drop]
    · show (v.data.take 10).length = 10
      rw [List.length_take]
      omega
    · show (v.data.drop (v.data.length - 7)).length = 7
      rw [List.length_drop]
      omega
    · rw [maskAuthHeader, if_pos h]
  · intro h
    rw [maskAuthHeader, if_neg (by omega)]

/-- Witness for the amended C7 at a 21-character and a 2-character value. -/
theorem c7_mask_spec_witness :
    (∃ pre mid suf : String, "ABCDEFGHIJKLMNOPQRSTU" = pre ++ mid ++ suf ∧
      pre.length = 10 ∧ suf.length = 7 ∧
      maskAuthHeader "ABCDEFGHIJKLMNOPQRSTU" = pre ++ "..." ++ suf) ∧
    maskAuthHeader "AB" = "***" :=
  ⟨(c7_mask_spec "ABCDEFGHIJKLMNOPQRSTU").1 (by decide),
   (c7_mask_spec "AB").2 (by decide)⟩

/-! Last-wins selectors over an option list, used to state C8. -/

/-- The last base-address override, or the default. -/
def lastBaseURLOpt (opts : List ClientOption) : String :=
  ((opts.filterMap fun o =>
    match o with
    | .withBaseURL u => some u
    | _ => none).getLast?).getD BaseURL

/-- The last timeout override, or the default. -/
def lastTimeoutOpt (opts : List ClientOption) : Nat :=
  ((opts.filterMap fun o =>
    match o with
    | .withTimeout t => some t
    | _ => none).getLast?).getD DefaultTimeout

/-- The last transport-handle override, or the default handle. -/
def lastTransportOpt (opts : List ClientOption) : HTTPClient :=
  ((opts.filterMap fun o =>
    match o with
    | .withHTTPClient h => some h
    | _ => none).getLast?).getD { timeout := DefaultTimeout }

/-- The last diagnostics override, or off. -/
def lastDebugOpt (opts : List ClientOption) : Bool :=
  ((opts.filterMap fun o =>
    match o with
    | .withDebug b => some b
    | _ => none).getLast?).getD false

/-- The timeout that actually results: the last option among the timeout
and transport-handle options, a transport handle contributing its own
timeout. -/
def lastEffectiveTimeout (opts : List ClientOption) : Nat :=
  ((opts.filterMap fun o =>
    match o with
    | .withTimeout t => some t
    | .withHTTPClient h => some h.timeout
    | _ => none).getLast?).getD DefaultTimeout

/-- Counterexample for C8: a timeout option followed by a transport-handle
option.  The transport handle carries its own timeout, so the resulting
timeout field is 99, not the value 5 set by the last (and only) option
targeting the timeout field. -/
theorem c8_last_option_counterexample :
    (NewClientWithOptions "k" "s"
      [.withTimeout 5, .withHTTPClient { timeout := 99, tag := 1 }]).httpClient.timeout
        = 99 ∧
    lastTimeoutOpt
      [.withTimeout 5, .withHTTPClient { timeout := 99, tag := 1 }] = 5 ∧
    (NewClientWithOptions "k" "s"
      [.withTimeout 5, .withHTTPClient { timeout := 99, tag := 1 }]).httpClient.timeout
        ≠ lastTimeoutOpt
          [.withTimeout 5, .withHTTPClient { timeout := 99, tag := 1 }] := by
  refine ⟨rfl, rfl, by decide⟩

/-- C8 (amended): options are applied in call order and each configuration
field is last-wins — base address, transport handle identity and the
diagnostics flag from the last option targeting them (default otherwise),
while the timeout equals the value of the last option among the timeout
and transport-handle options, because a transport handle carries its own
timeout. -/
theorem c8_options_last_wins (k s : String) (opts : List ClientOption) :
    (NewClientWithOptions k s opts).apiKey = k ∧
    (NewClientWithOptions k s opts).apiKeySecret = s ∧
    (NewClientWithOptions k s opts).baseURL = lastBaseURLOpt opts ∧
    (NewClientWithOptions k s opts).httpClient.tag = (lastTransportOpt opts).tag ∧
    (NewClientWithOptions k s opts).httpClient.timeout = lastEffectiveTimeout opts ∧
    (NewClientWithOptions k s opts).debug = lastDebugOpt opts := by
  induction opts using List.reverseRecOn with
  | nil => exact ⟨rfl, rfl, rfl, rfl, rfl, rfl⟩
  | append_singleton xs x ih =>
    obtain ⟨h1, h2, h3, h4, h5, h6⟩ := ih
    rw [NewClientWithOptions, List.foldl_append] at *
    rw [lastBaseURLOpt, lastTransportOpt, lastEffectiveTimeout, lastDebugOpt,
      List.filterMap_append, List.filterMap_append, List.filterMap_append,
      List.filterMap_append]
    cases x <;>
      simp_all [applyOption, lastBaseURLOpt, lastTransportOpt,
        lastEffectiveTimeout, lastDebugOpt, List.getLast?_concat]

theorem doJSONRequest_debug_independent {α : Type} (c : Client) (d₁ d₂ : Bool)
    (m e : String) (dec : String → Except String α) (t : Transport) :
    (doJSONRequest { c with debug := d₁ } m e dec t).result =
      (doJSONRequest { c with debug := d₂ } m e dec t).result ∧
    (doJSONRequest { c with debug := d₁ } m e dec t).request =
      (doJSONRequest { c with debug := d₂ } m e dec t).request := by
  constructor
  · rw [doJSONRequest_result, doJSONRequest_result]; rfl
  · rw [doJSONRequest_request, doJSONRequest_request]; rfl

/-- C9: two runs of any endpoint method that differ only in the
diagnostics flag issue the same request and return the same result value
and the same error; the flag only changes the side-channel log. -/
theorem c9_debug_flag_result_independent (c : Client) (n : Int)
    (t : Transport) (d₁ d₂ : Bool) :
    (({ c with debug := d₁ } : Client).GetSuggestedGasFees n t).result =
      (({ c with debug := d₂ } : Client).GetSuggestedGasFees n t).result ∧
    (({ c with debug := d₁ } : Client).GetBaseFeeHistory n t).result =
      (({ c with debug := d₂ } : Client).GetBaseFeeHistory n t).result ∧
    (({ c with debug := d₁ } : Client).GetBaseFeePercentile n t).result =
      (({ c with debug := d₂ } : Client).GetBaseFeePercentile n t).result ∧
    (({ c with debug := d₁ } : Client).GetBusyThreshold n t).result =
      (({ c with debug := d₂ } : Client).GetBusyThreshold n t).result ∧
    (({ c with debug := d₁ } : Client).GetSuggestedGasFees n t).request =
      (({ c with debug := d₂ } : Client).GetSuggestedGasFees n t).request := by
  refine ⟨?_, ?_, ?_, ?_, ?_⟩
  · exact (doJSONRequest_debug_independent c d₁ d₂ "GET" _ _ t).1
  · exact (doJSONRequest_debug_independent c d₁ d₂ "GET" _ _ t).1
  · exact (doJSONRequest_debug_independent c d₁ d₂ "GET" _ _ t).1
  · exact (doJSONRequest_debug_independent c d₁ d₂ "GET" _ _ t).1
  · exact (doJSONRequest_debug_independent c d₁ d₂ "GET" _ _ t).2

end Infura
